import Mathlib

/-!
Verification of the DAB power-converter simulation and compliance engine of
the M.Y. Engineering repository (power-platform).

The compliance rules engine is embedded from the `evaluate_rule` Python code
in `docs/COMPLIANCE_NOTES.md` (the only evaluation code present in the
repository), with Python semantics made explicit: dictionary `.get` returns
an optional value, `dict[key]` raises `KeyError` on a missing key, ordered
comparison or subtraction against `None` raises `TypeError`, and a `return`
that references a local never assigned on the taken path raises `NameError`.
Measured metrics are rational numbers.
-/

namespace PowerPlatform

/-- Python runtime errors that `evaluate_rule` can raise. -/
inductive PyError where
  | typeError
  | keyError
  | nameError
deriving DecidableEq, Repr

/-- A compliance rule record (`{name, check_type, metric, min_limit?, max_limit?, severity}`).
Optional limits model keys that may be absent from the rule dictionary. -/
structure ComplianceRule where
  rule_name : String
  check_type : String
  metric : String
  min_limit : Option ℚ
  max_limit : Option ℚ
  severity : String
deriving DecidableEq, Repr

/-- The dictionary returned by `evaluate_rule`. `measured` and `limit` are
optional because the Python code can put `None` in those slots. -/
structure RuleResult where
  passed : Bool
  measured : Option ℚ
  limit : Option ℚ
  margin : ℚ
  severity : String
deriving DecidableEq, Repr

/-- Python truthiness of an optional number: `None` and `0` are falsy. -/
def pyTruthy : Option ℚ → Bool
  | none => false
  | some x => decide (x ≠ 0)

/-- Python `a or b` on optional numbers: `a` when truthy, else `b`.
Embeds `rule.get("min_limit") or rule.get("max_limit")`. -/
def pyOr (a b : Option ℚ) : Option ℚ :=
  if pyTruthy a then a else b

/-- Python `rule[key]` on an optional field: raises `KeyError` when absent. -/
def pyIndex (o : Option ℚ) : Except PyError ℚ :=
  match o with
  | none => .error .keyError
  | some x => .ok x

/-- Python `a <= b` where either side may be `None`: comparison with `None`
raises `TypeError`. -/
def pyLe (a b : Option ℚ) : Except PyError Bool :=
  match a, b with
  | some x, some y => .ok (decide (x ≤ y))
  | _, _ => .error .typeError

/-- Python `a - b` where either side may be `None`: raises `TypeError`. -/
def pySub (a b : Option ℚ) : Except PyError ℚ :=
  match a, b with
  | some x, some y => .ok (x - y)
  | _, _ => .error .typeError

/-- The simulation-result record seen by the compliance engine:
a flat string-keyed numeric dictionary; `results.get(k)` is `List.lookup`. -/
def ResultsDict := List (String × ℚ)

/-- `evaluate_rule(rule, results)` from `docs/COMPLIANCE_NOTES.md`:

```python
def evaluate_rule(rule, results):
    measured = results.get(rule["metric"])
    if rule["check_type"] == "range":
        passed = rule["min_limit"] <= measured <= rule["max_limit"]
        margin = min(measured - rule["min_limit"], rule["max_limit"] - measured)
    elif rule["check_type"] == "max":
        passed = measured <= rule["max_limit"]
        margin = rule["max_limit"] - measured
    elif rule["check_type"] == "min":
        passed = measured >= rule["min_limit"]
        margin = measured - rule["min_limit"]
    return {"passed": passed, "measured": measured,
            "limit": rule.get("min_limit") or rule.get("max_limit"),
            "margin": margin, "severity": rule["severity"]}
```

Evaluation order is preserved: chained comparison `a <= b <= c` evaluates
`a <= b` first and looks `c` up only when that holds; the `margin` line
indexes both limits again; a check type with no branch reaches the `return`
with `passed`/`margin` unbound, a `NameError`. -/
def evaluateRuleBody (rule : ComplianceRule) (measured : Option ℚ) :
    Except PyError (Bool × ℚ) :=
  if rule.check_type = "range" then do
    let mn ← pyIndex rule.min_limit
    let b1 ← pyLe (some mn) measured
    let passed ←
      if b1 then do
        let mx ← pyIndex rule.max_limit
        pyLe measured (some mx)
      else pure false
    let mn2 ← pyIndex rule.min_limit
    let d1 ← pySub measured (some mn2)
    let mx2 ← pyIndex rule.max_limit
    let d2 ← pySub (some mx2) measured
    pure (passed, min d1 d2)
  else if rule.check_type = "max" then do
    let mx ← pyIndex rule.max_limit
    let passed ← pyLe measured (some mx)
    let mx2 ← pyIndex rule.max_limit
    let margin ← pySub (some mx2) measured
    pure (passed, margin)
  else if rule.check_type = "min" then do
    let mn ← pyIndex rule.min_limit
    let passed ← pyLe (some mn) measured
    let mn2 ← pyIndex rule.min_limit
    let margin ← pySub measured (some mn2)
    pure (passed, margin)
  else
    .error .nameError

/-- The full `evaluate_rule`: compute `passed` and `margin` in the branch
selected by `check_type`, then build the returned dictionary, whose `limit`
entry is `rule.get("min_limit") or rule.get("max_limit")` on every path. -/
def evaluate_rule (rule : ComplianceRule) (results : List (String × ℚ)) :
    Except PyError RuleResult :=
  let measured : Option ℚ := List.lookup rule.metric results
  (evaluateRuleBody rule measured).map fun pm =>
    ⟨pm.1, measured, pyOr rule.min_limit rule.max_limit, pm.2, rule.severity⟩

/-- The `voltage_range` rule of the IEEE-1547-style ruleset
(`min_limit 380`, `max_limit 420`, metric `voltage_avg`). -/
def voltageRangeRule : ComplianceRule :=
  ⟨"voltage_range", "range", "voltage_avg", some 380, some 420, "critical"⟩

end PowerPlatform


deriving instance DecidableEq for Except

namespace PowerPlatform

/-- Reduction of `evaluate_rule` on a range rule whose limits and metric are
all present: the chained comparison yields `min ≤ measured ∧ measured ≤ max`
and the margin is the smaller distance to the two limits. -/
lemma eval_range_eq (rule : ComplianceRule) (results : List (String × ℚ))
    (mn mx m : ℚ) (hct : rule.check_type = "range")
    (hmn : rule.min_limit = some mn) (hmx : rule.max_limit = some mx)
    (hm : List.lookup rule.metric results = some m) :
    evaluate_rule rule results =
      .ok ⟨decide (mn ≤ m ∧ m ≤ mx), some m, pyOr (some mn) (some mx),
           min (m - mn) (mx - m), rule.severity⟩ := by
  by_cases hb : mn ≤ m <;>
    simp [evaluate_rule, evaluateRuleBody, hct, hmn, hmx, hm, pyIndex, pyLe,
      pySub, hb, Except.map, bind, Except.bind, pure, Except.pure]

/-- C2: a range rule with limits `mn ≤ mx` and a present metric value `m`
evaluates to `passed = true` exactly when `mn ≤ m ≤ mx`, with
`margin = min (m - mn) (mx - m)`; a value exactly at either limit passes
with margin `0`. -/
theorem range_check_correct (rule : ComplianceRule) (results : List (String × ℚ))
    (mn mx m : ℚ) (hct : rule.check_type = "range")
    (hmn : rule.min_limit = some mn) (hmx : rule.max_limit = some mx)
    (hm : List.lookup rule.metric results = some m) :
    evaluate_rule rule results =
      .ok ⟨decide (mn ≤ m ∧ m ≤ mx), some m, pyOr (some mn) (some mx),
           min (m - mn) (mx - m), rule.severity⟩ ∧
    (decide (mn ≤ m ∧ m ≤ mx) = true ↔ (mn ≤ m ∧ m ≤ mx)) ∧
    (mn ≤ mx → m = mn ∨ m = mx →
      decide (mn ≤ m ∧ m ≤ mx) = true ∧ min (m - mn) (mx - m) = 0) := by
  refine ⟨eval_range_eq rule results mn mx m hct hmn hmx hm, by simp, ?_⟩
  rintro hle (rfl | rfl)
  · exact ⟨by simp [hle], by rw [sub_self]; exact min_eq_left (sub_nonneg.mpr hle)⟩
  · exact ⟨by simp [hle], by rw [sub_self]; exact min_eq_right (sub_nonneg.mpr hle)⟩

/-- C2 witness: the `voltage_range` rule (380 V – 420 V) against
`voltage_avg = 405` passes with margin `min 25 15 = 15`. -/
theorem range_check_witness :
    voltageRangeRule.check_type = "range" ∧ voltageRangeRule.min_limit = some 380 ∧
    voltageRangeRule.max_limit = some 420 ∧
    List.lookup voltageRangeRule.metric [("voltage_avg", (405 : ℚ))] = some 405 ∧
    evaluate_rule voltageRangeRule [("voltage_avg", 405)] =
      .ok ⟨true, some 405, some 380, 15, "critical"⟩ := by
  refine ⟨rfl, rfl, rfl, by decide, ?_⟩
  have h := (range_check_correct voltageRangeRule [("voltage_avg", 405)] 380 420 405
    rfl rfl rfl (by decide)).1
  rw [h]
  norm_num [pyOr, pyTruthy, voltageRangeRule, min_def]

/-- C5: evaluating the `voltage_range` rule against a result record that has
no `voltage_avg` key raises `TypeError` (Python compares `380.0 <= None`),
instead of failing the rule with a "metric unavailable" reason as the spec
prescribes. -/
theorem missing_metric_raises :
    evaluate_rule voltageRangeRule [("thd", (3 : ℚ))] = .error .typeError := by
  decide

/-- C10: every successful `evaluate_rule` result reports
`limit = rule.get("min_limit") or rule.get("max_limit")` under Python
truthiness: an absent or zero `min_limit` makes the reported limit the
`max_limit`, and a nonzero `min_limit` is always the reported limit,
whichever bound actually failed. -/
theorem limit_field_pyOr (rule : ComplianceRule) (results : List (String × ℚ))
    (r : RuleResult) (h : evaluate_rule rule results = .ok r) :
    r.limit = pyOr rule.min_limit rule.max_limit ∧
    ((rule.min_limit = none ∨ rule.min_limit = some 0) → r.limit = rule.max_limit) ∧
    (∀ q : ℚ, rule.min_limit = some q → q ≠ 0 → r.limit = some q) := by
  have hl : r.limit = pyOr rule.min_limit rule.max_limit := by
    simp only [evaluate_rule] at h
    cases hb : evaluateRuleBody rule (List.lookup rule.metric results) with
    | error e => rw [hb] at h; simp [Except.map] at h
    | ok pm =>
      rw [hb] at h; simp only [Except.map, Except.ok.injEq] at h
      rw [← h]
  refine ⟨hl, ?_, ?_⟩
  · rintro (hn | h0) <;> rw [hl]
    · simp [pyOr, pyTruthy, hn]
    · simp [pyOr, pyTruthy, h0]
  · intro q hq hq0
    rw [hl, hq]
    simp [pyOr, pyTruthy, hq0]

/-- C10 witness: `voltage_avg = 500` violates the `max_limit` 420, yet the
reported limit is the `min_limit` 380. -/
theorem limit_field_witness :
    evaluate_rule voltageRangeRule [("voltage_avg", (500 : ℚ))] =
      .ok ⟨false, some 500, some 380, -80, "critical"⟩ ∧
    (RuleResult.mk false (some 500) (some 380) (-80) "critical").limit = some 380 := by
  have hok : evaluate_rule voltageRangeRule [("voltage_avg", (500 : ℚ))] =
      .ok ⟨false, some 500, some 380, -80, "critical"⟩ := by
    rw [eval_range_eq voltageRangeRule _ 380 420 500 rfl rfl rfl (by decide)]
    norm_num [pyOr, pyTruthy, voltageRangeRule, min_def]
  exact ⟨hok, ((limit_field_pyOr voltageRangeRule [("voltage_avg", 500)] _ hok).2.2 380
    rfl (by norm_num))⟩

end PowerPlatform

namespace PowerPlatform

structure ZVSCondition where
  energyAvailable : ℚ
  energyRequired : ℚ
  margin : ℚ
  achieved : Bool
deriving DecidableEq, Repr

/-- Modelled from the spec: `check_zvs` (§4.4; `zvs_solver.py` is absent from
the sources, its contract is given by the spec and `src/unnamed/part_005`
lines 722–746): energy stored in the leakage inductance `½·Llk·I²` must
exceed the energy needed to discharge the device output capacitance
`½·Coss·V²`; `margin = (available − required)/required · 100`. -/
def check_zvs (llk iLlk coss v : ℚ) : ZVSCondition :=
  let ea := llk * iLlk ^ 2 / 2
  let er := coss * v ^ 2 / 2
  let m := (ea - er) / er * 100
  ⟨ea, er, m, decide (0 < m)⟩

inductive ZVSClass where
  | fullZVS
  | partZVS
  | hardSwitching
deriving DecidableEq, Repr

/-- Modelled from the spec: operating-point classification (§4.4):
margin > 20 % → full ZVS, 0–20 % → partial, < 0 % → hard switching. -/
def classifyZVS (margin : ℚ) : ZVSClass :=
  if 20 < margin then .fullZVS
  else if 0 ≤ margin then .partZVS
  else .hardSwitching

lemma classify_full_iff (m : ℚ) : classifyZVS m = .fullZVS ↔ 20 < m := by
  unfold classifyZVS
  split_ifs with h1 h2 <;> simp [h1]

lemma classify_part_iff (m : ℚ) : classifyZVS m = .partZVS ↔ 0 ≤ m ∧ m ≤ 20 := by
  unfold classifyZVS
  split_ifs with h1 h2
  · exact ⟨fun h => absurd h (by decide), fun h => absurd h1 (not_lt.mpr h.2)⟩
  · exact ⟨fun _ => ⟨h2, not_lt.mp h1⟩, fun _ => rfl⟩
  · exact ⟨fun h => absurd h (by decide), fun h => absurd h.1 h2⟩

lemma classify_hard_iff (m : ℚ) : classifyZVS m = .hardSwitching ↔ m < 0 := by
  unfold classifyZVS
  split_ifs with h1 h2
  · exact ⟨fun h => absurd h (by decide), fun h => by linarith⟩
  · exact ⟨fun h => absurd h (by decide), fun h => absurd h2 (not_le.mpr h)⟩
  · exact ⟨fun _ => not_le.mp h2, fun _ => rfl⟩

theorem check_zvs_correct (llk iLlk coss v : ℚ) (her : 0 < coss * v ^ 2) :
    (check_zvs llk iLlk coss v).energyAvailable = llk * iLlk ^ 2 / 2 ∧
    (check_zvs llk iLlk coss v).energyRequired = coss * v ^ 2 / 2 ∧
    (check_zvs llk iLlk coss v).margin =
      ((check_zvs llk iLlk coss v).energyAvailable -
        (check_zvs llk iLlk coss v).energyRequired) /
        (check_zvs llk iLlk coss v).energyRequired * 100 ∧
    ((check_zvs llk iLlk coss v).achieved = true ↔ 0 < (check_zvs llk iLlk coss v).margin) ∧
    ((check_zvs llk iLlk coss v).achieved = true ↔
      (check_zvs llk iLlk coss v).energyRequired < (check_zvs llk iLlk coss v).energyAvailable) ∧
    (∀ m : ℚ, (classifyZVS m = .fullZVS ↔ 20 < m) ∧
      (classifyZVS m = .partZVS ↔ 0 ≤ m ∧ m ≤ 20) ∧
      (classifyZVS m = .hardSwitching ↔ m < 0)) := by
  have her2 : 0 < coss * v ^ 2 / 2 := by linarith
  have key : ∀ x : ℚ, 0 < x / (coss * v ^ 2 / 2) * 100 ↔ 0 < x := by
    intro x
    rw [div_mul_eq_mul_div, lt_div_iff₀ her2]
    constructor <;> intro h <;> nlinarith
  refine ⟨rfl, rfl, ?_, ?_, ?_,
    fun m => ⟨classify_full_iff m, classify_part_iff m, classify_hard_iff m⟩⟩
  · simp only [check_zvs]
  · simp only [check_zvs, decide_eq_true_iff]
  · simp only [check_zvs, decide_eq_true_iff]
    rw [key]
    exact sub_pos

end PowerPlatform

namespace PowerPlatform

/-- C3 witness: `Llk = 2 H`, `I = 1 A`, `Coss = 1 F`, `V = 1 V` gives
available energy 1 J against required 0.5 J: margin 100 %, ZVS achieved,
classified full ZVS. -/
theorem check_zvs_witness :
    (0 : ℚ) < 1 * 1 ^ 2 ∧
    (check_zvs 2 1 1 1).margin = 100 ∧
    (check_zvs 2 1 1 1).achieved = true ∧
    classifyZVS (check_zvs 2 1 1 1).margin = .fullZVS := by
  have h := check_zvs_correct 2 1 1 1 (by norm_num)
  have hm : (check_zvs 2 1 1 1).margin = 100 := by norm_num [check_zvs]
  refine ⟨by norm_num, hm, ?_, ?_⟩
  · exact h.2.2.2.1.mpr (by rw [hm]; norm_num)
  · exact (h.2.2.2.2.2 ((check_zvs 2 1 1 1).margin)).1.mpr (by rw [hm]; norm_num)

/-- Inputs of the electro-thermal fixed-point iteration (spec §4.2):
ambient temperature, device on-resistance at 25 °C and its linear
temperature coefficient, the RMS current, the temperature-independent
losses, and the total junction-to-ambient thermal resistance. -/
structure ThermalParams where
  tAmbient : ℚ
  rdsOn25 : ℚ
  tempCoeff : ℚ
  iRms : ℚ
  fixedLoss : ℚ
  rThermal : ℚ
deriving DecidableEq, Repr

/-- Modelled from the spec: `Rds(on)(Tj) = Rds(on)(25°C)·[1 + α·(Tj − 25)]`
(§4.2; `src/unnamed/part_005` lines 686–691). -/
def rdsOnAt (tp : ThermalParams) (tj : ℚ) : ℚ :=
  tp.rdsOn25 * (1 + tp.tempCoeff * (tj - 25))

/-- Modelled from the spec: total loss at junction temperature `tj`:
conduction `I_rms²·Rds(on)(Tj)` plus the temperature-independent part. -/
def lossAt (tp : ThermalParams) (tj : ℚ) : ℚ :=
  tp.iRms ^ 2 * rdsOnAt tp tj + tp.fixedLoss

/-- Modelled from the spec: `T_j = T_ambient + P_loss·(R_θJC + R_θCA)`
(§4.2; `src/unnamed/part_005` lines 750–762). -/
def tjNext (tp : ThermalParams) (tj : ℚ) : ℚ :=
  tp.tAmbient + lossAt tp tj * tp.rThermal

/-- Result of the thermal iteration (spec §3 `ThermalState`). -/
structure ThermalState where
  tj : ℚ
  iterations : ℕ
  converged : Bool
deriving DecidableEq, Repr

/-- Convergence tolerance `0.1 °C` (spec §4.2). -/
def thermalTolerance : ℚ := 1 / 10

/-- Maximum iteration bound `20` (spec §4.2). -/
def thermalMaxIter : ℕ := 20

/-- Modelled from the spec: the iteration loop of §4.2 (`dab_single.py`'s
thermal solver is absent from the sources). Starting from `T_j = 100 °C`,
recompute `T_j` until `|ΔT_j| < tolerance`, giving up non-converged when
the fuel (remaining allowed iterations) runs out. -/
def thermalGo (tp : ThermalParams) : ℕ → ℚ → ℕ → ThermalState
  | 0, tj, n => ⟨tj, n, false⟩
  | fuel + 1, tj, n =>
    let tj2 := tjNext tp tj
    if |tj2 - tj| < thermalTolerance then ⟨tj2, n + 1, true⟩
    else thermalGo tp fuel tj2 (n + 1)

/-- Modelled from the spec: the full thermal solve with initial guess
`T_j = 100 °C` and at most 20 iterations. -/
def solveThermal (tp : ThermalParams) : ThermalState :=
  thermalGo tp thermalMaxIter 100 0

lemma thermalGo_spec (tp : ThermalParams) :
    ∀ (fuel : ℕ) (tj : ℚ) (n : ℕ),
      (thermalGo tp fuel tj n).iterations ≤ n + fuel ∧
      ((thermalGo tp fuel tj n).converged = false →
        (thermalGo tp fuel tj n).iterations = n + fuel) ∧
      ((thermalGo tp fuel tj n).converged = true →
        ∃ t, (thermalGo tp fuel tj n).tj = tjNext tp t ∧
          |tjNext tp t - t| < thermalTolerance) := by
  intro fuel
  induction fuel with
  | zero =>
    intro tj n
    simp [thermalGo]
  | succ k ih =>
    intro tj n
    by_cases h : |tjNext tp tj - tj| < thermalTolerance
    · rw [show thermalGo tp (k + 1) tj n = ⟨tjNext tp tj, n + 1, true⟩ from by
        simp [thermalGo, h]]
      exact ⟨by show n + 1 ≤ n + (k + 1); omega, by simp, fun _ => ⟨tj, rfl, h⟩⟩
    · rw [show thermalGo tp (k + 1) tj n = thermalGo tp k (tjNext tp tj) (n + 1) from by
        simp [thermalGo, h]]
      obtain ⟨ha, hb, hc⟩ := ih (tjNext tp tj) (n + 1)
      exact ⟨by omega, fun hcv => by rw [hb hcv]; omega, hc⟩

/-- C4: the thermal loop always stops within the 20-iteration bound; a state
reported converged really did see `|ΔT_j| < tolerance` at its last step, and
a state that used up the whole bound without meeting the tolerance is
reported non-converged (`converged = false` happens only at the bound). -/
theorem thermal_loop_bounded (tp : ThermalParams) :
    (solveThermal tp).iterations ≤ thermalMaxIter ∧
    ((solveThermal tp).converged = true →
      ∃ t, (solveThermal tp).tj = tjNext tp t ∧ |tjNext tp t - t| < thermalTolerance) ∧
    ((solveThermal tp).converged = false →
      (solveThermal tp).iterations = thermalMaxIter) := by
  obtain ⟨ha, hb, hc⟩ := thermalGo_spec tp thermalMaxIter 100 0
  exact ⟨by simpa [solveThermal] using ha, fun h => hc h,
    fun h => by simpa [solveThermal] using hb h⟩

/-- Modelled from the spec: the THD/power-factor kernel of §4.1 with its
zero-power guard. `sqrtFn` abstracts the numeric square root (the kernel's
floating-point `sqrt`); the guard compares the fundamental magnitude with
the numerical epsilon before any division: below it the kernel returns
`(THD, PF) = (0, 1)` by convention, else
`THD = sqrt(Σ h_i²)/fundamental·100` and `PF = DPF/sqrt(1 + THD²)`. -/
def thdAndPowerFactor (sqrtFn : ℚ → ℚ) (eps fundamental : ℚ)
    (harmonics : List ℚ) (dpf : ℚ) : ℚ × ℚ :=
  if fundamental < eps then (0, 1)
  else
    let t := sqrtFn ((harmonics.map (fun h => h ^ 2)).sum) / fundamental * 100
    (t, dpf / sqrtFn (1 + (t / 100) ^ 2))

/-- C6: whenever the fundamental magnitude is below the numerical epsilon,
the kernel returns THD = 0 and PF = 1, for every square-root function,
harmonic list and displacement factor — no division by the fundamental is
performed. -/
theorem zero_power_thd_pf (eps fundamental : ℚ) (h : fundamental < eps) :
    ∀ (sqrtFn : ℚ → ℚ) (harmonics : List ℚ) (dpf : ℚ),
      thdAndPowerFactor sqrtFn eps fundamental harmonics dpf = (0, 1) := by
  intro sqrtFn harmonics dpf
  simp [thdAndPowerFactor, h]

/-- C6 witness: a zero fundamental with the epsilon `10⁻⁶`. -/
theorem zero_power_thd_pf_witness :
    (0 : ℚ) < 1 / 1000000 ∧
    thdAndPowerFactor (fun x => x) (1 / 1000000) 0 [5, 3] (1 / 2) = (0, 1) :=
  ⟨by norm_num, zero_power_thd_pf (1 / 1000000) 0 (by norm_num) _ _ _⟩

/-- JavaScript values that cross the frontend api boundary. -/
inductive JsValue where
  | num (n : ℤ)
  | str (s : String)
  | arr (elems : List JsValue)
  | undef

/-- An HTTP request issued by the axios wrapper: method, path, body. -/
structure ApiRequest where
  method : String
  path : String
  body : JsValue

/-- `compliance.check` from `frontend/src/lib/api.ts` lines 122–129:
`check: (data: any) => api.post('/compliance/check', data)` — a single
`data` parameter posted unchanged as the request body. -/
def complianceCheck (data : JsValue) : ApiRequest :=
  ⟨"POST", "/compliance/check", data⟩

/-- JavaScript function application with two supplied arguments to a unary
function: the extra argument is dropped. -/
def jsCall2 (f : JsValue → ApiRequest) (a _extra : JsValue) : ApiRequest :=
  f a

/-- `handleCheck` from `frontend/src/pages/Compliance.tsx` lines 30–46:
`compliance.check(parseInt(selectedRun), selectedRulesets)` — the parsed run
id and the selected-ruleset array are both supplied to the unary
`compliance.check`. -/
def handleCheckRequest (selectedRunParsed : ℤ) (selectedRulesets : List String) :
    ApiRequest :=
  jsCall2 complianceCheck (.num selectedRunParsed)
    (.arr (selectedRulesets.map .str))

/-- C9: the request issued by `handleCheck` is a POST of just the parsed run
id to `/compliance/check`; the rulesets array never influences it. -/
theorem compliance_check_drops_rulesets (runId : ℤ) (rulesets : List String) :
    handleCheckRequest runId rulesets =
      ⟨"POST", "/compliance/check", .num runId⟩ ∧
    ∀ other : List String,
      handleCheckRequest runId rulesets = handleCheckRequest runId other :=
  ⟨rfl, fun _ => rfl⟩

end PowerPlatform

namespace PowerPlatform

/-- Simulation input record (spec §3 `SimulationParameters`). The phase
shift is stored normalized, `phaseShift = φ/π ∈ [0, 1]`. -/
structure SimulationParameters where
  vin : ℚ
  vout : ℚ
  power : ℚ
  fsw : ℚ
  llk : ℚ
  turnsRatio : ℚ
  phaseShift : ℚ
  deadtime : ℚ
  cin : ℚ
  cout : ℚ
  tAmbient : ℚ
deriving DecidableEq, Repr

/-- Semiconductor device record (spec §3 `DeviceParams`). -/
structure DeviceParams where
  name : String
  manufacturer : String
  technology : String
  vdsMax : ℚ
  idMax : ℚ
  rdsOn25 : ℚ
  tempCoeff : ℚ
  coss : ℚ
  qg : ℚ
deriving DecidableEq, Repr

/-- Modelled from the spec: the DAB power-transfer equation
`P = (n·Vin·Vout)/(ω·Llk) · φ·(1 − φ/π)` (§4.3; `src/unnamed/part_005`
lines 644–661). With `ω = 2π·fsw` and the normalized phase `d = φ/π` the π
cancels exactly: `P = (n·Vin·Vout)/(2·fsw·Llk) · d·(1 − d)`. -/
def powerTransfer (p : SimulationParameters) : ℚ :=
  p.turnsRatio * p.vin * p.vout / (2 * p.fsw * p.llk)
    * (p.phaseShift * (1 - p.phaseShift))

/-- Modelled from the spec: the maximum power achievable within the
phase-shift bounds, attained at `φ = π/2` (`d = 1/2`):
`(n·Vin·Vout)/(8·fsw·Llk)`. -/
def maxAchievablePower (p : SimulationParameters) : ℚ :=
  p.turnsRatio * p.vin * p.vout / (8 * p.fsw * p.llk)

/-- Typed simulation failures (spec §7). -/
inductive SimError where
  | invalidParameter (message : String)
  | infeasibleOperatingPoint (maxAchievable : ℚ)
deriving DecidableEq, Repr

/-- The data a successful feasibility-checked DAB run carries forward into
the waveform/loss pipeline. -/
structure DabOperatingPoint where
  requestedPower : ℚ
  transferAtPhase : ℚ
deriving DecidableEq, Repr

/-- Modelled from the spec: the feasibility gate of `simulate` (§4.3,
`dab_single.py` is absent from the sources): the requested power must be
achievable within the phase-shift bounds, else the run fails with
`InfeasibleOperatingPoint` reporting the maximum achievable power. -/
def dabSimulate (p : SimulationParameters) (_dev : DeviceParams) :
    Except SimError DabOperatingPoint :=
  if maxAchievablePower p < p.power then
    .error (.infeasibleOperatingPoint (maxAchievablePower p))
  else
    .ok ⟨p.power, powerTransfer p⟩

/-- C1: with positive electrical parameters, `simulate` fails with
`InfeasibleOperatingPoint` reporting the maximum achievable power exactly
when the requested power exceeds the power transfer achievable within the
phase-shift bounds; the reported maximum dominates the transfer equation on
the whole phase range and is attained at `d = 1/2` (φ = π/2). -/
theorem dab_infeasible_iff (p : SimulationParameters) (dev : DeviceParams)
    (hn : 0 < p.turnsRatio) (hvin : 0 < p.vin) (hvout : 0 < p.vout)
    (hf : 0 < p.fsw) (hl : 0 < p.llk) :
    (dabSimulate p dev = .error (.infeasibleOperatingPoint (maxAchievablePower p)) ↔
      maxAchievablePower p < p.power) ∧
    (∀ d : ℚ, 0 ≤ d → d ≤ 1 →
      powerTransfer { p with phaseShift := d } ≤ maxAchievablePower p) ∧
    powerTransfer { p with phaseShift := 1 / 2 } = maxAchievablePower p := by
  have hfne : p.fsw ≠ 0 := ne_of_gt hf
  have hlne : p.llk ≠ 0 := ne_of_gt hl
  have hbase : 0 < p.turnsRatio * p.vin * p.vout / (2 * p.fsw * p.llk) := by positivity
  have h4 : maxAchievablePower p =
      p.turnsRatio * p.vin * p.vout / (2 * p.fsw * p.llk) * (1 / 4) := by
    unfold maxAchievablePower
    field_simp
    ring
  refine ⟨?_, ?_, ?_⟩
  · unfold dabSimulate
    split_ifs with h
    · exact ⟨fun _ => h, fun _ => rfl⟩
    · constructor
      · intro he
        exact absurd he (by simp)
      · intro hc
        exact absurd hc h
  · intro d hd0 hd1
    have hdd : d * (1 - d) ≤ 1 / 4 := by nlinarith [sq_nonneg (d - 1 / 2)]
    have : powerTransfer { p with phaseShift := d } =
        p.turnsRatio * p.vin * p.vout / (2 * p.fsw * p.llk) * (d * (1 - d)) := rfl
    rw [this, h4]
    exact mul_le_mul_of_nonneg_left hdd hbase.le
  · have : powerTransfer { p with phaseShift := (1 / 2 : ℚ) } =
        p.turnsRatio * p.vin * p.vout / (2 * p.fsw * p.llk) * (1 / 2 * (1 - 1 / 2)) := rfl
    rw [this, h4]
    norm_num

/-- The infeasibility scenario of spec §8: Vin = Vout = 400 V,
fsw = 100 kHz, Llk = 10 µH, n = 1, φ = π/4 (d = 1/4), requested power
50 kW. -/
def scenarioParams : SimulationParameters :=
  ⟨400, 400, 50000, 100000, 1 / 100000, 1, 1 / 4, 0, 0, 0, 25⟩

/-- The scenario device (C2M0080120D-like SiC record). -/
def scenarioDevice : DeviceParams :=
  ⟨"C2M0080120D", "Wolfspeed", "SiC", 1200, 36, 8 / 100, 6 / 1000,
    8 / 100000000000, 49 / 1000000000⟩

/-- C1 witness: the 50 kW request at d = 1/4 fails with
`InfeasibleOperatingPoint` reporting a maximum achievable power of 20 kW,
which is less than the 50 kW requested. -/
theorem dab_infeasible_witness :
    ((0 : ℚ) < scenarioParams.turnsRatio ∧ (0 : ℚ) < scenarioParams.vin ∧
      (0 : ℚ) < scenarioParams.vout ∧ (0 : ℚ) < scenarioParams.fsw ∧
      (0 : ℚ) < scenarioParams.llk) ∧
    maxAchievablePower scenarioParams = 20000 ∧
    dabSimulate scenarioParams scenarioDevice =
      .error (.infeasibleOperatingPoint 20000) ∧
    (20000 : ℚ) < 50000 := by
  have hmax : maxAchievablePower scenarioParams = 20000 := by
    norm_num [maxAchievablePower, scenarioParams]
  have h := (dab_infeasible_iff scenarioParams scenarioDevice
    (by norm_num [scenarioParams]) (by norm_num [scenarioParams])
    (by norm_num [scenarioParams]) (by norm_num [scenarioParams])
    (by norm_num [scenarioParams])).1
  rw [hmax] at h
  refine ⟨⟨by norm_num [scenarioParams], by norm_num [scenarioParams],
    by norm_num [scenarioParams], by norm_num [scenarioParams],
    by norm_num [scenarioParams]⟩, hmax, ?_, by norm_num⟩
  exact h.mpr (by norm_num [scenarioParams])

end PowerPlatform

namespace PowerPlatform

/-- Modelled from the spec: the power factor the DAB model reports.
`VERIFICATION_REPORT.md` line 229 documents `dab_single.py` (absent from
the sources) as computing the power factor with the `cos(φ)` approximation,
and spec §9 confirms the source uses `cos(φ)` of the commanded phase-shift
angle. -/
noncomputable def dab_power_factor (phi : ℝ) : ℝ := Real.cos phi

/-- The spec §4.1 formulation `true_pf = cos(θ₁)/sqrt(1 + THD²)`
(`src/unnamed/part_005` lines 853–865), stated from the spec's words for
comparison with the reported value. -/
noncomputable def true_power_factor (theta1 thdFraction : ℝ) : ℝ :=
  Real.cos theta1 / Real.sqrt (1 + thdFraction ^ 2)

/-- C7 counterexample: at φ = θ₁ = π/3 with THD fraction 3/4 the reported
power factor cos(π/3) = 1/2 differs from the claimed
cos(π/3)/√(1 + (3/4)²) = 2/5. -/
theorem power_factor_counterexample :
    dab_power_factor (Real.pi / 3) ≠ true_power_factor (Real.pi / 3) (3 / 4) := by
  have hc : Real.cos (Real.pi / 3) = 1 / 2 := Real.cos_pi_div_three
  have hs : Real.sqrt (1 + (3 / 4 : ℝ) ^ 2) = 5 / 4 := by
    rw [show (1 + (3 / 4 : ℝ) ^ 2) = (5 / 4) ^ 2 by norm_num]
    exact Real.sqrt_sq (by norm_num)
  unfold dab_power_factor true_power_factor
  rw [hc, hs]
  norm_num

/-- C7 amended: the reported power factor is `cos(φ)` of the commanded
phase shift; it agrees with the spec's `cos(θ₁)/√(1 + THD²)` exactly in the
distortion-free case (THD = 0 with θ₁ = φ) and differs from it at every
operating point with nonzero THD and nonzero displacement factor. -/
theorem power_factor_is_cos_phi (phi t : ℝ) (hc : Real.cos phi ≠ 0)
    (ht : 0 < t) :
    dab_power_factor phi = Real.cos phi ∧
    dab_power_factor phi = true_power_factor phi 0 ∧
    dab_power_factor phi ≠ true_power_factor phi t := by
  refine ⟨rfl, ?_, ?_⟩
  · unfold dab_power_factor true_power_factor
    norm_num
  · have hs1 : 1 < Real.sqrt (1 + t ^ 2) := by
      have h1 : Real.sqrt 1 < Real.sqrt (1 + t ^ 2) :=
        Real.sqrt_lt_sqrt (by norm_num) (by nlinarith)
      rwa [Real.sqrt_one] at h1
    intro heq
    unfold dab_power_factor true_power_factor at heq
    have hspos : 0 < Real.sqrt (1 + t ^ 2) := lt_trans one_pos hs1
    have hmul : Real.cos phi * Real.sqrt (1 + t ^ 2) = Real.cos phi := by
      nth_rewrite 1 [heq]
      exact div_mul_cancel₀ _ (ne_of_gt hspos)
    have hone : Real.sqrt (1 + t ^ 2) = 1 :=
      mul_left_cancel₀ hc (hmul.trans (mul_one _).symm)
    rw [hone] at hs1
    exact lt_irrefl 1 hs1

/-- C7 witness for the amended theorem, at φ = 0, THD fraction 1. -/
theorem power_factor_is_cos_phi_witness :
    (Real.cos 0 ≠ 0 ∧ (0 : ℝ) < 1) ∧
    (dab_power_factor 0 = Real.cos 0 ∧
      dab_power_factor 0 = true_power_factor 0 0 ∧
      dab_power_factor 0 ≠ true_power_factor 0 1) := by
  have hc : Real.cos 0 ≠ 0 := by rw [Real.cos_zero]; norm_num
  exact ⟨⟨hc, by norm_num⟩, power_factor_is_cos_phi 0 1 hc (by norm_num)⟩

/-- `conduction_loss(i_rms, r_ds_on) = I²·R` (spec §4.2). -/
noncomputable def conduction_loss (iRms rdsOnT : ℝ) : ℝ := iRms ^ 2 * rdsOnT

/-- `switching_loss`: `(Eon + Eoff)·fsw` with the energies already scaled
to the operating voltage/current (spec §4.2; `src/unnamed/part_005` lines
695–704). -/
noncomputable def switching_loss (eon eoff fsw : ℝ) : ℝ := (eon + eoff) * fsw

/-- Steinmetz core loss `k·f^α·B^β·Volume` (spec §4.2). -/
noncomputable def core_loss (freq bMax volume k alpha beta : ℝ) : ℝ :=
  k * freq ^ alpha * bMax ^ beta * volume

/-- `copper_loss(i_rms, r_ac) = I²·R_ac` (spec §4.2). -/
noncomputable def copper_loss (iRms rAc : ℝ) : ℝ := iRms ^ 2 * rAc

/-- The loss breakdown record (spec §3 `LossBreakdown`). -/
structure LossBreakdown where
  conduction : ℝ
  switching : ℝ
  core : ℝ
  copper : ℝ
  total : ℝ

/-- Modelled from the spec: the loss breakdown a completed simulation
reports, assembled from the §4.2 kernels, with `total` the sum of the four
components. -/
noncomputable def mkLossBreakdown (iRms rdsOnT eon eoff fsw freq bMax volume
    k alpha beta rAc : ℝ) : LossBreakdown :=
  let pc := conduction_loss iRms rdsOnT
  let ps := switching_loss eon eoff fsw
  let pcore := core_loss freq bMax volume k alpha beta
  let pcu := copper_loss iRms rAc
  ⟨pc, ps, pcore, pcu, pc + ps + pcore + pcu⟩

/-- `efficiency = P_out/(P_out + P_loss)·100` (spec §4.3). -/
noncomputable def efficiency (pout ploss : ℝ) : ℝ := pout / (pout + ploss) * 100

/-- C8: with physically meaningful (non-negative) inputs every loss
component is non-negative, the total is exactly the sum of the four
components, and the efficiency computed from the total loss lies in
[0, 100]. -/
theorem loss_breakdown_invariants (iRms rdsOnT eon eoff fsw freq bMax volume
    k alpha beta rAc pout : ℝ)
    (h1 : 0 ≤ rdsOnT) (h2 : 0 ≤ eon) (h3 : 0 ≤ eoff) (h4 : 0 ≤ fsw)
    (h5 : 0 ≤ freq) (h6 : 0 ≤ bMax) (h7 : 0 ≤ volume) (h8 : 0 ≤ k)
    (h9 : 0 ≤ rAc) (h10 : 0 ≤ pout) :
    0 ≤ (mkLossBreakdown iRms rdsOnT eon eoff fsw freq bMax volume k alpha beta rAc).conduction ∧
    0 ≤ (mkLossBreakdown iRms rdsOnT eon eoff fsw freq bMax volume k alpha beta rAc).switching ∧
    0 ≤ (mkLossBreakdown iRms rdsOnT eon eoff fsw freq bMax volume k alpha beta rAc).core ∧
    0 ≤ (mkLossBreakdown iRms rdsOnT eon eoff fsw freq bMax volume k alpha beta rAc).copper ∧
    (mkLossBreakdown iRms rdsOnT eon eoff fsw freq bMax volume k alpha beta rAc).total =
      (mkLossBreakdown iRms rdsOnT eon eoff fsw freq bMax volume k alpha beta rAc).conduction +
      (mkLossBreakdown iRms rdsOnT eon eoff fsw freq bMax volume k alpha beta rAc).switching +
      (mkLossBreakdown iRms rdsOnT eon eoff fsw freq bMax volume k alpha beta rAc).core +
      (mkLossBreakdown iRms rdsOnT eon eoff fsw freq bMax volume k alpha beta rAc).copper ∧
    0 ≤ efficiency pout (mkLossBreakdown iRms rdsOnT eon eoff fsw freq bMax volume k alpha beta rAc).total ∧
    efficiency pout (mkLossBreakdown iRms rdsOnT eon eoff fsw freq bMax volume k alpha beta rAc).total ≤ 100 := by
  have hpc : 0 ≤ conduction_loss iRms rdsOnT := mul_nonneg (sq_nonneg _) h1
  have hps : 0 ≤ switching_loss eon eoff fsw := mul_nonneg (add_nonneg h2 h3) h4
  have hpcore : 0 ≤ core_loss freq bMax volume k alpha beta :=
    mul_nonneg (mul_nonneg (mul_nonneg h8 (Real.rpow_nonneg h5 _))
      (Real.rpow_nonneg h6 _)) h7
  have hpcu : 0 ≤ copper_loss iRms rAc := mul_nonneg (sq_nonneg _) h9
  have hL : 0 ≤ conduction_loss iRms rdsOnT + switching_loss eon eoff fsw +
      core_loss freq bMax volume k alpha beta + copper_loss iRms rAc := by
    linarith
  have htot : (mkLossBreakdown iRms rdsOnT eon eoff fsw freq bMax volume
      k alpha beta rAc).total =
      conduction_loss iRms rdsOnT + switching_loss eon eoff fsw +
      core_loss freq bMax volume k alpha beta + copper_loss iRms rAc := rfl
  refine ⟨hpc, hps, hpcore, hpcu, rfl, ?_, ?_⟩
  · rw [htot]
    unfold efficiency
    rcases eq_or_lt_of_le (add_nonneg h10 hL) with heq | hpos
    · rw [← heq, div_zero, zero_mul]
    · exact mul_nonneg (div_nonneg h10 hpos.le) (by norm_num)
  · rw [htot]
    unfold efficiency
    rcases eq_or_lt_of_le (add_nonneg h10 hL) with heq | hpos
    · rw [← heq, div_zero, zero_mul]
      norm_num
    · have hdiv : pout / (pout + (conduction_loss iRms rdsOnT +
          switching_loss eon eoff fsw + core_loss freq bMax volume k alpha beta +
          copper_loss iRms rAc)) ≤ 1 :=
        (div_le_one hpos).mpr (by linarith)
      linarith [hdiv]

/-- C8 witness: concrete non-negative operating values. -/
theorem loss_breakdown_witness :
    ((0 : ℝ) ≤ 1 / 100 ∧ (0 : ℝ) ≤ 1 / 1000 ∧ (0 : ℝ) ≤ 1 / 1000 ∧
      (0 : ℝ) ≤ 100000 ∧ (0 : ℝ) ≤ 100000 ∧ (0 : ℝ) ≤ 1 / 10 ∧
      (0 : ℝ) ≤ 1 / 100000 ∧ (0 : ℝ) ≤ 1 / 10000 ∧ (0 : ℝ) ≤ 1 / 20 ∧
      (0 : ℝ) ≤ 5000) ∧
    (0 ≤ (mkLossBreakdown 2 (1 / 100) (1 / 1000) (1 / 1000) 100000 100000
        (1 / 10) (1 / 100000) (1 / 10000) (8 / 5) (13 / 5) (1 / 20)).total ∧
      0 ≤ efficiency 5000 (mkLossBreakdown 2 (1 / 100) (1 / 1000) (1 / 1000)
        100000 100000 (1 / 10) (1 / 100000) (1 / 10000) (8 / 5) (13 / 5)
        (1 / 20)).total ∧
      efficiency 5000 (mkLossBreakdown 2 (1 / 100) (1 / 1000) (1 / 1000)
        100000 100000 (1 / 10) (1 / 100000) (1 / 10000) (8 / 5) (13 / 5)
        (1 / 20)).total ≤ 100) := by
  have h := loss_breakdown_invariants 2 (1 / 100) (1 / 1000) (1 / 1000) 100000
    100000 (1 / 10) (1 / 100000) (1 / 10000) (8 / 5) (13 / 5) (1 / 20) 5000
    (by norm_num) (by norm_num) (by norm_num) (by norm_num) (by norm_num)
    (by norm_num) (by norm_num) (by norm_num) (by norm_num) (by norm_num)
  refine ⟨⟨by norm_num, by norm_num, by norm_num, by norm_num, by norm_num,
    by norm_num, by norm_num, by norm_num, by norm_num, by norm_num⟩, ?_, h.2.2.2.2.2.1, h.2.2.2.2.2.2⟩
  have := h.2.2.2.2.1
  rw [this]
  linarith [h.1, h.2.1, h.2.2.1, h.2.2.2.1]

end PowerPlatform
